import Mathlib

/-!
# PhotoShare — Tenant Isolation Enforcement Layer, shallow embedding

A shallow embedding of the tenant-isolation layer of the PhotoShare
multi-tenant backend, together with the client-side upload validation and
the platform dashboard listing logic of the React frontend.

The backend isolation layer itself (`core/tenant_isolation.py`,
`core/tenant_views.py`) is not present in the repository snapshot; only its
documentation, its attack-simulation tests and its frontend callers are.
The definitions below that carry a `Modelled from the spec:` doc comment
are therefore translated from the specification's words (spec §3, §4.1–§4.4,
§7, §8).  The frontend definitions (`applyStatusFilter`, `isValidFile`,
`validateAndSetFiles`) are translated directly from the JSX sources
(`PlatformDashboard.jsx`, `UploadPage.jsx`).
-/

namespace PhotoShare

/-- Tenant identifiers. -/
abbrev TenantId := Nat

/-- Roles of authenticated principals (spec §3: `MEMBER`, `ADMIN`, `SUPERADMIN`). -/
inductive Role where
  | member
  | admin
  | superadmin
deriving DecidableEq, Repr

/-- A tenant (a church): unique identifier, display name, join code,
`active` flag, creation timestamp (spec §3). -/
structure Tenant where
  id : TenantId
  name : String
  joinCode : String
  active : Bool
  createdAt : Nat
deriving DecidableEq, Repr

/-- The authenticated principal: identifier, role, and — for members and
admins — an owning-tenant reference (spec §3). -/
structure Principal where
  id : Nat
  role : Role
  tenantRef : Option TenantId
deriving DecidableEq, Repr

/-- Per-request context: principal, resolved tenant (nullable only for
superadmin platform operations), request id (spec §3). -/
structure RequestContext where
  principal : Principal
  tenant : Option TenantId
  requestId : Nat
deriving DecidableEq, Repr

/-- A tenant-scoped resource (album, photo, …): mandatory tenant reference
plus domain payload (spec §3). -/
structure Resource where
  id : Nat
  tenant : TenantId
  title : String
deriving DecidableEq, Repr

/-- The underlying data store of tenant-scoped resources. -/
abbrev Store := List Resource

/-- A caller-supplied payload for create/update; a malicious caller may
name a tenant of its own choosing here (spec §4.3). -/
structure Payload where
  tenant : Option TenantId
  title : String
deriving DecidableEq, Repr

/-- Resolver failure (spec §7): principal authenticated but has no usable
tenant. -/
inductive ResolveError where
  | MissingTenantContext
deriving DecidableEq, Repr

/-- Look a tenant up by its identifier. -/
def lookupTenant (tenants : List Tenant) (tid : TenantId) : Option Tenant :=
  tenants.find? (fun t => t.id == tid)

/-- Modelled from the spec: the Tenant Context Resolver (spec §4.1); the
implementation (`TenantContextMiddleware` in `core/tenant_isolation.py`) is
not in the snapshot.  For `MEMBER`/`ADMIN`: no tenant reference, an unknown
tenant, or a tenant that is not `active` fails with `MissingTenantContext`.
For `SUPERADMIN`: produces a context with `tenant = none`. -/
def resolveContext (tenants : List Tenant) (p : Principal) (requestId : Nat) :
    Except ResolveError RequestContext :=
  match p.role with
  | .superadmin => .ok ⟨p, none, requestId⟩
  | _ =>
    match p.tenantRef with
    | none => .error .MissingTenantContext
    | some tid =>
      match lookupTenant tenants tid with
      | none => .error .MissingTenantContext
      | some t =>
        if t.active then .ok ⟨p, some tid, requestId⟩
        else .error .MissingTenantContext

/-- Modelled from the spec: request control flow (spec §2, §4.1) — the
Resolver runs first and on failure the request is rejected before any
business handler (Decision Engine / Scoped Data Accessor) runs. -/
def handleRequest {α : Type} (tenants : List Tenant) (p : Principal)
    (requestId : Nat) (handler : RequestContext → α) : Except ResolveError α :=
  match resolveContext tenants p requestId with
  | .error e => .error e
  | .ok ctx => .ok (handler ctx)

/-- Access decisions of the Decision Engine (spec §4.2, §7): `allow`, or a
deny tagged with its reason (`CrossTenantAccessDenied`,
`SuperuserBypassDenied`, or the fail-closed ambiguous-tenant case). -/
inductive Decision where
  | allow
  | denyCrossTenant
  | denySuperuserBypass
  | denyMissingTenant
deriving DecidableEq, Repr

/-- Modelled from the spec: `decide(context, action, resourceClass,
resourceInstance?)` (spec §4.2); the implementation
(`TenantIsolationPermission` in `core/tenant_isolation.py`) is not in the
snapshot.  `target = none` is the collection-level check (ALLOW only if
`context.tenant ≠ null`); `target = some rt` is the object-level check on
an instance whose tenant reference is `rt` (ALLOW iff it equals
`context.tenant`; `none` on either side outside the superadmin-collection
case is DENY — fail closed).  A null context tenant is a superadmin
context, so its denial is tagged `SuperuserBypassDenied` (spec §7). -/
def decide (ctx : RequestContext) (action : String) (resourceClass : String)
    (target : Option (Option TenantId)) : Decision :=
  match target with
  | none =>
    match ctx.tenant with
    | some _ => .allow
    | none => .denySuperuserBypass
  | some rt =>
    match ctx.tenant, rt with
    | none, _ => .denySuperuserBypass
    | some _, none => .denyMissingTenant
    | some ct, some rtt => if rtt = ct then .allow else .denyCrossTenant

/-- Caller-visible outcome of the Scoped Data Accessor: the resource's
data, or the single "not found" outcome used for missing rows and all
tenant-scoped denials alike (spec §4.2, §4.3, §7). -/
inductive AccessResult where
  | found (r : Resource)
  | notFound
deriving DecidableEq, Repr

/-- The tenant predicate that the Scoped Data Accessor injects into every
query: the row's tenant must equal the context's tenant (spec §3, §4.3). -/
def tenantPredicate (ctx : RequestContext) (r : Resource) : Bool :=
  some r.tenant == ctx.tenant

/-- Modelled from the spec: `list(context, filters)` (spec §4.3); the
implementation (`TenantScopedQuerySetMixin`) is not in the snapshot.
Conjoins `tenant == context.tenant` to the caller-supplied filter; no
parameter removes the predicate. -/
def listResources (ctx : RequestContext) (filters : Resource → Bool)
    (store : Store) : List Resource :=
  store.filter (fun r => tenantPredicate ctx r && filters r)

/-- Modelled from the spec: `getOrFail(context, id)` (spec §4.3); the
implementation (`get_tenant_object_or_404`) is not in the snapshot.
Fetches by primary key and tenant predicate in one step; a row of another
tenant yields the same "not found" outcome as a missing row. -/
def getOrFail (ctx : RequestContext) (store : Store) (rid : Nat) : AccessResult :=
  match store.find? (fun r => r.id == rid && tenantPredicate ctx r) with
  | some r => .found r
  | none => .notFound

/-- Modelled from the spec: `create(context, payload)` (spec §4.3); the
implementation (`TenantModelViewSet.perform_create`) is not in the
snapshot.  The tenant field of the created resource is always stamped from
`context.tenant`, overwriting any tenant value in the payload; a context
without a tenant cannot create. -/
def create (ctx : RequestContext) (store : Store) (payload : Payload)
    (newId : Nat) : Option (Store × Resource) :=
  match ctx.tenant with
  | none => none
  | some t =>
    let r : Resource := ⟨newId, t, payload.title⟩
    some (store ++ [r], r)

/-- Applies payload fields to a resource, excluding the tenant field
(spec §4.3). -/
def applyPayload (r : Resource) (payload : Payload) : Resource :=
  { r with title := payload.title }

/-- Modelled from the spec: `update(context, id, payload)` (spec §4.3);
re-resolves the object via `getOrFail` first, then applies the payload
excluding the tenant field. -/
def update (ctx : RequestContext) (store : Store) (rid : Nat)
    (payload : Payload) : AccessResult × Store :=
  match getOrFail ctx store rid with
  | .notFound => (.notFound, store)
  | .found r =>
    (.found (applyPayload r payload),
     store.map (fun x =>
       if x.id == r.id && x.tenant == r.tenant then applyPayload x payload else x))

/-- Modelled from the spec: `delete(context, id)` (spec §4.3); same
re-resolution pattern as update. -/
def deleteResource (ctx : RequestContext) (store : Store) (rid : Nat) :
    AccessResult × Store :=
  match getOrFail ctx store rid with
  | .notFound => (.notFound, store)
  | .found r =>
    (.found r, store.filter (fun x => !(x.id == r.id && x.tenant == r.tenant)))

/-- A structured security event (spec §4.4): timestamp, principal
identifier, tenant (if any), action, outcome, and a free-form detail
string. -/
structure SecurityEvent where
  timestamp : Nat
  principalId : Nat
  tenant : Option TenantId
  action : String
  outcome : String
  detail : String
deriving DecidableEq, Repr

/-- State of the Security Event Recorder: the underlying sink when it is
available (`some` of its contents, `none` when unavailable), and the
process-local best-effort fallback buffer (spec §4.4). -/
structure RecorderState where
  sink : Option (List SecurityEvent)
  fallback : List SecurityEvent
deriving DecidableEq, Repr

/-- Modelled from the spec: `record(event)` (spec §4.4); the implementation
is not in the snapshot.  A total function into `RecorderState` — no error
channel exists, so `RecorderUnavailable` can never propagate to the caller;
when the sink is unavailable the call degrades to the local fallback
buffer. -/
def record (st : RecorderState) (e : SecurityEvent) : RecorderState :=
  match st.sink with
  | some s => { st with sink := some (s ++ [e]) }
  | none => { st with fallback := st.fallback ++ [e] }

/-- Authentication failures of the login/signup gate. -/
inductive AuthError where
  | inactiveTenant
  | unknownTenant
deriving DecidableEq, Repr

/-- Modelled from the spec: the login/signup gate of the tenant `active`
invariant (spec §3); the implementation is not in the snapshot.  A tenant
with `active = false` rejects all login/signup for its members. -/
def authGate (tenants : List Tenant) (tid : TenantId) : Except AuthError Unit :=
  match lookupTenant tenants tid with
  | none => .error .unknownTenant
  | some t => if t.active then .ok () else .error .inactiveTenant

/-- A church tenant as rendered by the platform dashboard
(`PlatformDashboard.jsx`): the fields the status filter and the table
consume. -/
structure Church where
  church_id : Nat
  name : String
  church_code : String
  is_active : Bool
deriving DecidableEq, Repr

/-- The status-filter effect of `PlatformDashboard.jsx` (the `statusFilter`
useEffect): `all` shows every church, `active` keeps `is_active` ones,
`inactive` keeps the rest; any other value leaves the previously filtered
list unchanged (the effect body has no branch for it). -/
def applyStatusFilter (statusFilter : String) (churches prev : List Church) :
    List Church :=
  if statusFilter = "all" then churches
  else if statusFilter = "active" then churches.filter (fun c => c.is_active)
  else if statusFilter = "inactive" then churches.filter (fun c => !c.is_active)
  else prev

/-- A browser `File` object as consumed by `UploadPage.jsx`: name, MIME
type, size in bytes. -/
structure FileObj where
  name : String
  type : String
  size : Nat
deriving DecidableEq, Repr

/-- The accepted MIME types of `UploadPage.validateAndSetFiles`. -/
def validTypes : List String :=
  ["image/jpeg", "image/jpg", "image/png", "image/gif", "image/webp"]

/-- The maximum accepted file size of `UploadPage.validateAndSetFiles`
(10 MB). -/
def maxSize : Nat := 10 * 1024 * 1024

/-- The per-file predicate of `UploadPage.validateAndSetFiles`: reject a
file whose type is not in `validTypes`, reject a file larger than
`maxSize`, keep the rest. -/
def isValidFile (file : FileObj) : Bool :=
  if !(validTypes.contains file.type) then false
  else if file.size > maxSize then false
  else true

/-- `UploadPage.validateAndSetFiles`: filter the incoming files by
`isValidFile` and, when any survive, append them to the previously
selected files (when none survive the selection is left unchanged). -/
def validateAndSetFiles (prev files : List FileObj) : List FileObj :=
  let validFiles := files.filter isValidFile
  if validFiles.length > 0 then prev ++ validFiles else prev

/-! ## Helper lemmas -/

/-- Filtering a list by a predicate that every hit of `find?` satisfies
does not change the result of `find?`. -/
theorem find_filter_of_imp {α : Type} (p q : α → Bool) (l : List α)
    (h : ∀ x, p x = true → q x = true) :
    (l.filter q).find? p = l.find? p := by
  induction l with
  | nil => rfl
  | cons a tl ih =>
    by_cases hq : q a = true
    · rw [List.filter_cons_of_pos hq]
      by_cases hp : p a = true
      · rw [List.find?_cons_of_pos _ hp, List.find?_cons_of_pos _ hp]
      · rw [List.find?_cons_of_neg _ hp, List.find?_cons_of_neg _ hp, ih]
    · rw [List.filter_cons_of_neg (by simpa using hq), ih,
          List.find?_cons_of_neg]
      intro hp
      exact hq (h a hp)

/-- A context without a tenant gets the not-found outcome from
`getOrFail` on every store and id. -/
theorem getOrFail_none_tenant (ctx : RequestContext) (store : Store)
    (rid : Nat) (h : ctx.tenant = none) :
    getOrFail ctx store rid = AccessResult.notFound := by
  have hf : store.find? (fun r => r.id == rid && tenantPredicate ctx r) = none := by
    rw [List.find?_eq_none]
    intro x _
    simp [tenantPredicate, h]
  simp [getOrFail, hf]

/-- Whenever `getOrFail` returns a resource, that resource's tenant is
the context's tenant. -/
theorem getOrFail_found_tenant (ctx : RequestContext) (store : Store)
    (rid : Nat) (r : Resource)
    (h : getOrFail ctx store rid = AccessResult.found r) :
    some r.tenant = ctx.tenant := by
  unfold getOrFail at h
  cases hf : store.find? (fun x => x.id == rid && tenantPredicate ctx x) with
  | none => rw [hf] at h; cases h
  | some x =>
    rw [hf] at h
    injection h with h2
    subst h2
    have hx := List.find?_some hf
    have := ((Bool.and_eq_true _ _).mp hx).2
    simpa [tenantPredicate] using this

/-! ## Claim theorems -/

/-- Claim C1 — no superuser bypass: for every `RequestContext` the
Resolver produces for a `SUPERADMIN` principal, the tenant-scoped decision
path (collection-level or object-level, any action and resource class)
never returns ALLOW, and the tenant-scoped accessor path yields the
not-found outcome, regardless of which tenant owns the targeted
resource. -/
theorem superadmin_tenant_scoped_path_denied
    (tenants : List Tenant) (p : Principal) (requestId : Nat)
    (ctx : RequestContext)
    (hres : resolveContext tenants p requestId = .ok ctx)
    (hrole : p.role = Role.superadmin)
    (action resourceClass : String) (target : Option (Option TenantId))
    (store : Store) (rid : Nat) :
    decide ctx action resourceClass target ≠ Decision.allow ∧
    getOrFail ctx store rid = AccessResult.notFound := by
  have hctx : ctx.tenant = none := by
    simp only [resolveContext, hrole] at hres
    injection hres with h
    rw [← h]
  refine ⟨?_, getOrFail_none_tenant ctx store rid hctx⟩
  cases target with
  | none => simp [PhotoShare.decide, hctx]
  | some rt => simp [PhotoShare.decide, hctx]

/-- Witness for claim C1 at a concrete superadmin principal and a tenant-1
photo store. -/
theorem superadmin_tenant_scoped_path_denied_witness :
    decide ⟨⟨7, Role.superadmin, none⟩, none, 0⟩ "retrieve" "Photo"
        (some (some 1)) ≠ Decision.allow ∧
    getOrFail ⟨⟨7, Role.superadmin, none⟩, none, 0⟩ [⟨42, 1, "Youth Retreat"⟩]
        42 = AccessResult.notFound :=
  superadmin_tenant_scoped_path_denied [] ⟨7, Role.superadmin, none⟩ 0
    ⟨⟨7, Role.superadmin, none⟩, none, 0⟩ rfl rfl "retrieve" "Photo"
    (some (some 1)) [⟨42, 1, "Youth Retreat"⟩] 42

/-- Claim C2 — not-found indistinguishability: under a context scoped to
tenant `t2`, a resource `R` of a different tenant `t1` is never returned;
`getOrFail`, `update` and `delete` produce the very same caller-visible
outcome on the store as on the store with `R` removed (as if `R` did not
exist); and the tenant-null (superuser-bypass) case gets the same single
not-found outcome. -/
theorem cross_tenant_not_found_indistinguishable
    (ctx : RequestContext) (store : Store) (R : Resource) (t1 t2 : TenantId)
    (hctx : ctx.tenant = some t2) (hR : R.tenant = t1) (hne : t1 ≠ t2)
    (rid : Nat) (payload : Payload) :
    getOrFail ctx store rid ≠ AccessResult.found R ∧
    getOrFail ctx store rid =
      getOrFail ctx (store.filter (fun x => !(x == R))) rid ∧
    (update ctx store rid payload).1 =
      (update ctx (store.filter (fun x => !(x == R))) rid payload).1 ∧
    (deleteResource ctx store rid).1 =
      (deleteResource ctx (store.filter (fun x => !(x == R))) rid).1 ∧
    (∀ ctx' : RequestContext, ctx'.tenant = none →
      getOrFail ctx' store rid = AccessResult.notFound) := by
  have himp : ∀ x : Resource,
      (x.id == rid && tenantPredicate ctx x) = true → (!(x == R)) = true := by
    intro x hx
    have h2 : some x.tenant = ctx.tenant := by
      have := ((Bool.and_eq_true _ _).mp hx).2
      simpa [tenantPredicate] using this
    have hxt : x.tenant = t2 := by
      rw [hctx] at h2
      exact Option.some_injective _ h2
    simp only [Bool.not_eq_true', beq_eq_false_iff_ne]
    intro hxr
    subst hxr
    rw [hR] at hxt
    exact hne hxt
  have hget : getOrFail ctx store rid =
      getOrFail ctx (store.filter (fun x => !(x == R))) rid := by
    unfold getOrFail
    rw [find_filter_of_imp _ _ _ himp]
  refine ⟨?_, hget, ?_, ?_, ?_⟩
  · intro h
    have := getOrFail_found_tenant ctx store rid R h
    rw [hctx, hR] at this
    exact hne (Option.some_injective _ this)
  · unfold update
    rw [hget]
    cases getOrFail ctx (store.filter (fun x => !(x == R))) rid <;> rfl
  · unfold deleteResource
    rw [hget]
    cases getOrFail ctx (store.filter (fun x => !(x == R))) rid <;> rfl
  · intro ctx' h
    exact getOrFail_none_tenant ctx' store rid h

/-- Witness for claim C2: a tenant-2 context, a tenant-1 resource, and the
store holding only that resource. -/
theorem cross_tenant_not_found_indistinguishable_witness :
    getOrFail ⟨⟨3, Role.member, some 2⟩, some 2, 1⟩ [⟨42, 1, "Youth Retreat"⟩]
        42 ≠ AccessResult.found ⟨42, 1, "Youth Retreat"⟩ ∧
    getOrFail ⟨⟨3, Role.member, some 2⟩, some 2, 1⟩ [⟨42, 1, "Youth Retreat"⟩]
        42 =
      getOrFail ⟨⟨3, Role.member, some 2⟩, some 2, 1⟩
        (([⟨42, 1, "Youth Retreat"⟩] : Store).filter
          (fun x => !(x == ⟨42, 1, "Youth Retreat"⟩))) 42 ∧
    (update ⟨⟨3, Role.member, some 2⟩, some 2, 1⟩ [⟨42, 1, "Youth Retreat"⟩]
        42 ⟨some 2, "Taken Over"⟩).1 =
      (update ⟨⟨3, Role.member, some 2⟩, some 2, 1⟩
        (([⟨42, 1, "Youth Retreat"⟩] : Store).filter
          (fun x => !(x == ⟨42, 1, "Youth Retreat"⟩))) 42
        ⟨some 2, "Taken Over"⟩).1 ∧
    (deleteResource ⟨⟨3, Role.member, some 2⟩, some 2, 1⟩
        [⟨42, 1, "Youth Retreat"⟩] 42).1 =
      (deleteResource ⟨⟨3, Role.member, some 2⟩, some 2, 1⟩
        (([⟨42, 1, "Youth Retreat"⟩] : Store).filter
          (fun x => !(x == ⟨42, 1, "Youth Retreat"⟩))) 42).1 ∧
    (∀ ctx' : RequestContext, ctx'.tenant = none →
      getOrFail ctx' [⟨42, 1, "Youth Retreat"⟩] 42 = AccessResult.notFound) :=
  cross_tenant_not_found_indistinguishable ⟨⟨3, Role.member, some 2⟩, some 2, 1⟩
    [⟨42, 1, "Youth Retreat"⟩] ⟨42, 1, "Youth Retreat"⟩ 1 2 rfl rfl
    (by decide) 42 ⟨some 2, "Taken Over"⟩

/-- Claim C3 — list scoping: every resource returned by
`list(context, filters)` has the context's tenant (the tenant predicate is
conjoined to the caller-supplied filter with no way to omit it — the
statement holds for every `filters` argument), and the result cardinality
under a context scoped to `t1` never exceeds the total number of
`t1`-owned resources in the store, however much data other tenants
hold. -/
theorem list_scoped (ctx : RequestContext) (filters : Resource → Bool)
    (store : Store) (t1 : TenantId) (hctx : ctx.tenant = some t1) :
    (∀ r ∈ listResources ctx filters store, r.tenant = t1) ∧
    (listResources ctx filters store).length ≤
      store.countP (fun r => r.tenant == t1) := by
  constructor
  · intro r hr
    have := (List.mem_filter.mp hr).2
    have h2 := ((Bool.and_eq_true _ _).mp this).1
    have h3 : some r.tenant = ctx.tenant := by simpa [tenantPredicate] using h2
    rw [hctx] at h3
    exact Option.some_injective _ h3
  · have hlen : (listResources ctx filters store).length =
        store.countP (fun r => tenantPredicate ctx r && filters r) := by
      simp [listResources, List.countP_eq_length_filter]
    rw [hlen]
    apply List.countP_mono_left
    intro x _ hx
    have h2 := ((Bool.and_eq_true _ _).mp hx).1
    have h3 : some x.tenant = ctx.tenant := by simpa [tenantPredicate] using h2
    rw [hctx] at h3
    simp [Option.some_injective _ h3]

/-- Witness for claim C3: a tenant-1 context listing over a store that
holds one tenant-1 resource and two tenant-2 resources. -/
theorem list_scoped_witness :
    (∀ r ∈ listResources ⟨⟨3, Role.member, some 1⟩, some 1, 1⟩ (fun _ => true)
        [⟨1, 1, "A"⟩, ⟨2, 2, "B"⟩, ⟨3, 2, "C"⟩], r.tenant = 1) ∧
    (listResources ⟨⟨3, Role.member, some 1⟩, some 1, 1⟩ (fun _ => true)
        [⟨1, 1, "A"⟩, ⟨2, 2, "B"⟩, ⟨3, 2, "C"⟩]).length ≤
      ([⟨1, 1, "A"⟩, ⟨2, 2, "B"⟩, ⟨3, 2, "C"⟩] : Store).countP
        (fun r => r.tenant == 1) :=
  list_scoped ⟨⟨3, Role.member, some 1⟩, some 1, 1⟩ (fun _ => true)
    [⟨1, 1, "A"⟩, ⟨2, 2, "B"⟩, ⟨3, 2, "C"⟩] 1 rfl

/-- Claim C4 — create stamps the tenant from the context: whenever
`create(context, payload)` succeeds, the created resource's tenant equals
`context.tenant` and the resource is appended to the store; moreover the
result of `create` is entirely independent of the payload's tenant field,
so a tenant value supplied by the caller is never stored. -/
theorem create_stamps_tenant (ctx : RequestContext) (store : Store)
    (payload : Payload) (newId : Nat) (st' : Store) (r : Resource)
    (h : create ctx store payload newId = some (st', r)) :
    some r.tenant = ctx.tenant ∧ st' = store ++ [r] ∧
    create ctx store payload newId =
      create ctx store ⟨none, payload.title⟩ newId := by
  have hindep : create ctx store payload newId =
      create ctx store ⟨none, payload.title⟩ newId := by
    unfold create
    cases ctx.tenant <;> rfl
  cases hc : ctx.tenant with
  | none => simp [create, hc] at h
  | some t =>
    simp only [create, hc] at h
    injection h with h2
    have hst : st' = store ++ [⟨newId, t, payload.title⟩] := by
      have := congrArg Prod.fst h2
      exact this.symm
    have hr : r = ⟨newId, t, payload.title⟩ := by
      have := congrArg Prod.snd h2
      exact this.symm
    subst hr
    exact ⟨rfl, hst, hindep⟩

/-- Witness for claim C4: a tenant-1 context creating with a payload that
maliciously names tenant 99; the stored resource carries tenant 1. -/
theorem create_stamps_tenant_witness :
    some (Resource.mk 5 1 "New Album").tenant =
      (⟨⟨3, Role.admin, some 1⟩, some 1, 1⟩ : RequestContext).tenant ∧
    [⟨5, 1, "New Album"⟩] = ([] : Store) ++ [⟨5, 1, "New Album"⟩] ∧
    create ⟨⟨3, Role.admin, some 1⟩, some 1, 1⟩ [] ⟨some 99, "New Album"⟩ 5 =
      create ⟨⟨3, Role.admin, some 1⟩, some 1, 1⟩ []
        ⟨none, (Payload.mk (some 99) "New Album").title⟩ 5 :=
  create_stamps_tenant ⟨⟨3, Role.admin, some 1⟩, some 1, 1⟩ []
    ⟨some 99, "New Album"⟩ 5 [⟨5, 1, "New Album"⟩] ⟨5, 1, "New Album"⟩ rfl

/-- Claim C5 — update never changes the tenant field: the `(id, tenant)`
projection of the store is unchanged by every `update` call; a cross-tenant
(or missing) id fails exactly as `getOrFail` does, leaving the store
untouched; and on success the applied payload excludes the tenant field,
so the updated resource keeps the tenant it had before, for every payload
including ones that name a different tenant. -/
theorem update_never_changes_tenant (ctx : RequestContext) (store : Store)
    (rid : Nat) (payload : Payload) :
    ((update ctx store rid payload).2.map (fun r => (r.id, r.tenant)) =
      store.map (fun r => (r.id, r.tenant))) ∧
    (getOrFail ctx store rid = AccessResult.notFound →
      update ctx store rid payload = (AccessResult.notFound, store)) ∧
    (∀ r, getOrFail ctx store rid = AccessResult.found r →
      (update ctx store rid payload).1 =
        AccessResult.found (applyPayload r payload) ∧
      (applyPayload r payload).tenant = r.tenant) := by
  refine ⟨?_, ?_, ?_⟩
  · unfold update
    cases h : getOrFail ctx store rid with
    | notFound => rfl
    | found r =>
      simp only
      rw [List.map_map]
      apply List.map_congr_left
      intro x _
      simp only [Function.comp]
      by_cases hc : (x.id == r.id && x.tenant == r.tenant) = true
      · rw [if_pos hc]
        rfl
      · rw [if_neg hc]
  · intro h
    unfold update
    rw [h]
  · intro r h
    unfold update
    rw [h]
    exact ⟨rfl, rfl⟩

/-- Witness for claim C5: an in-tenant update whose payload names tenant 99
leaves the `(id, tenant)` projection untouched, and a cross-tenant update
fails with the untouched store. -/
theorem update_never_changes_tenant_witness :
    ((update ⟨⟨3, Role.admin, some 1⟩, some 1, 1⟩ [⟨5, 1, "Old"⟩] 5
        ⟨some 99, "New"⟩).2.map (fun r => (r.id, r.tenant)) =
      ([⟨5, 1, "Old"⟩] : Store).map (fun r => (r.id, r.tenant))) ∧
    (getOrFail ⟨⟨3, Role.admin, some 1⟩, some 1, 1⟩ [⟨5, 1, "Old"⟩] 5 =
        AccessResult.notFound →
      update ⟨⟨3, Role.admin, some 1⟩, some 1, 1⟩ [⟨5, 1, "Old"⟩] 5
        ⟨some 99, "New"⟩ = (AccessResult.notFound, [⟨5, 1, "Old"⟩])) ∧
    (∀ r, getOrFail ⟨⟨3, Role.admin, some 1⟩, some 1, 1⟩ [⟨5, 1, "Old"⟩] 5 =
        AccessResult.found r →
      (update ⟨⟨3, Role.admin, some 1⟩, some 1, 1⟩ [⟨5, 1, "Old"⟩] 5
          ⟨some 99, "New"⟩).1 =
        AccessResult.found (applyPayload r ⟨some 99, "New"⟩) ∧
      (applyPayload r ⟨some 99, "New"⟩).tenant = r.tenant) :=
  update_never_changes_tenant ⟨⟨3, Role.admin, some 1⟩, some 1, 1⟩
    [⟨5, 1, "Old"⟩] 5 ⟨some 99, "New"⟩

/-- Claim C6 — resolver fail-fast: a `MEMBER` or `ADMIN` principal with no
tenant reference, or whose referenced tenant is unknown or not active,
fails context resolution with `MissingTenantContext`, and the request is
rejected before any business handler runs — `handleRequest` returns the
error for every possible handler, so the Decision Engine and the Scoped
Data Accessor are never invoked. -/
theorem resolver_fail_fast {α : Type} (tenants : List Tenant) (p : Principal)
    (requestId : Nat)
    (hrole : p.role = Role.member ∨ p.role = Role.admin)
    (hbad : ∀ tid, p.tenantRef = some tid →
      ∀ t, lookupTenant tenants tid = some t → t.active = false) :
    resolveContext tenants p requestId =
      .error ResolveError.MissingTenantContext ∧
    ∀ handler : RequestContext → α,
      handleRequest tenants p requestId handler =
        .error ResolveError.MissingTenantContext := by
  have hres : resolveContext tenants p requestId =
      .error ResolveError.MissingTenantContext := by
    cases href : p.tenantRef with
    | none => rcases hrole with h | h <;> simp [resolveContext, h, href]
    | some tid =>
      cases hlk : lookupTenant tenants tid with
      | none => rcases hrole with h | h <;> simp [resolveContext, h, href, hlk]
      | some t =>
        have hact := hbad tid href t hlk
        rcases hrole with h | h <;> simp [resolveContext, h, href, hlk, hact]
  refine ⟨hres, fun handler => ?_⟩
  unfold handleRequest
  rw [hres]

/-- Witness for claim C6: a member with no tenant reference is rejected
with `MissingTenantContext` before a (concrete) handler runs. -/
theorem resolver_fail_fast_witness :
    resolveContext [] ⟨3, Role.member, none⟩ 1 =
      .error ResolveError.MissingTenantContext ∧
    ∀ handler : RequestContext → Nat,
      handleRequest [] ⟨3, Role.member, none⟩ 1 handler =
        .error ResolveError.MissingTenantContext :=
  resolver_fail_fast [] ⟨3, Role.member, none⟩ 1 (Or.inl rfl)
    (fun tid h => by cases h)

/-- Claim C7 — fail closed: at the object-level check, whenever the tenant
cannot be determined on either side of the comparison (null context tenant
or null instance tenant), `decide` never returns ALLOW. -/
theorem decide_fail_closed (ctx : RequestContext)
    (action resourceClass : String) (rt : Option TenantId)
    (h : ctx.tenant = none ∨ rt = none) :
    decide ctx action resourceClass (some rt) ≠ Decision.allow := by
  rcases h with h | h
  · simp [PhotoShare.decide, h]
  · cases hc : ctx.tenant <;> simp [PhotoShare.decide, h, hc]

/-- Witness for claim C7: a concrete tenant-scoped context facing an
instance whose tenant is undetermined is denied. -/
theorem decide_fail_closed_witness :
    decide ⟨⟨3, Role.member, some 1⟩, some 1, 1⟩ "retrieve" "Photo"
      (some none) ≠ Decision.allow :=
  decide_fail_closed ⟨⟨3, Role.member, some 1⟩, some 1, 1⟩ "retrieve" "Photo"
    none (Or.inr rfl)

/-- Claim C8 — inactive-tenant invariant: a tenant with `active = false`
rejects its members' login/signup attempts at the gate, while an inactive
church stays visible to platform administrators — the dashboard's `all`
status filter (its default) keeps it in the listing, and the dedicated
`inactive` filter selects it. -/
theorem inactive_tenant_rejected_but_visible
    (tenants : List Tenant) (tid : TenantId) (t : Tenant)
    (hlk : lookupTenant tenants tid = some t) (hact : t.active = false)
    (churches prev : List Church) (c : Church)
    (hc : c ∈ churches) (hca : c.is_active = false) :
    authGate tenants tid = .error AuthError.inactiveTenant ∧
    c ∈ applyStatusFilter "all" churches prev ∧
    c ∈ applyStatusFilter "inactive" churches prev := by
  refine ⟨?_, ?_, ?_⟩
  · simp [authGate, hlk, hact]
  · simpa [applyStatusFilter] using hc
  · simp only [applyStatusFilter]
    norm_num
    exact List.mem_filter.mpr ⟨hc, by simp [hca]⟩

/-- Witness for claim C8: a concrete inactive tenant is rejected by the
gate yet listed by the dashboard under the `all` and `inactive` filters. -/
theorem inactive_tenant_rejected_but_visible_witness :
    authGate [⟨4, "First Baptist", "FB1234", false, 0⟩] 4 =
      .error AuthError.inactiveTenant ∧
    (⟨4, "First Baptist", "FB1234", false⟩ : Church) ∈
      applyStatusFilter "all" [⟨4, "First Baptist", "FB1234", false⟩] [] ∧
    (⟨4, "First Baptist", "FB1234", false⟩ : Church) ∈
      applyStatusFilter "inactive" [⟨4, "First Baptist", "FB1234", false⟩] [] :=
  inactive_tenant_rejected_but_visible [⟨4, "First Baptist", "FB1234", false, 0⟩]
    4 ⟨4, "First Baptist", "FB1234", false, 0⟩ rfl rfl
    [⟨4, "First Baptist", "FB1234", false⟩] [] ⟨4, "First Baptist", "FB1234", false⟩
    (List.mem_singleton.mpr rfl) rfl

/-- Claim C9 — the recorder never fails the request: `record` is a total
function into `RecorderState` (it has no error channel, so no failure can
propagate to the caller); with the sink available it appends the event to
the sink, and with the sink unavailable it degrades to appending the event
to the process-local fallback buffer. -/
theorem record_never_fails (st : RecorderState) (e : SecurityEvent) :
    (st.sink = none →
      record st e = { st with fallback := st.fallback ++ [e] }) ∧
    (∀ s, st.sink = some s →
      record st e = { st with sink := some (s ++ [e]) }) := by
  constructor
  · intro h
    simp [record, h]
  · intro s h
    simp [record, h]

/-- Witness for claim C9: a concrete event recorded with the sink
unavailable lands in the fallback buffer. -/
theorem record_never_fails_witness :
    ((⟨none, []⟩ : RecorderState).sink = none →
      record ⟨none, []⟩ ⟨0, 3, some 1, "GET", "DENY", "cross-tenant"⟩ =
        { (⟨none, []⟩ : RecorderState) with
            fallback := [] ++ [⟨0, 3, some 1, "GET", "DENY", "cross-tenant"⟩] }) ∧
    (∀ s, (⟨none, []⟩ : RecorderState).sink = some s →
      record ⟨none, []⟩ ⟨0, 3, some 1, "GET", "DENY", "cross-tenant"⟩ =
        { (⟨none, []⟩ : RecorderState) with
            sink := some (s ++ [⟨0, 3, some 1, "GET", "DENY", "cross-tenant"⟩]) }) :=
  record_never_fails ⟨none, []⟩ ⟨0, 3, some 1, "GET", "DENY", "cross-tenant"⟩

/-- Claim C10 — upload-client file validation: `validateAndSetFiles`
appends to the selection exactly the incoming files that pass
`isValidFile`; a file is selected iff it was already selected or it is an
incoming file whose MIME type is one of the five accepted image types and
whose size is at most 10·1024·1024 bytes; every file failing either check
is excluded. -/
theorem upload_file_validation (prev files : List FileObj) (f : FileObj) :
    validateAndSetFiles prev files = prev ++ files.filter isValidFile ∧
    (f ∈ validateAndSetFiles prev files ↔
      f ∈ prev ∨ (f ∈ files ∧ isValidFile f = true)) ∧
    (isValidFile f = true ↔
      validTypes.contains f.type = true ∧ f.size ≤ maxSize) := by
  have h1 : validateAndSetFiles prev files = prev ++ files.filter isValidFile := by
    unfold validateAndSetFiles
    by_cases h : (files.filter isValidFile).length > 0
    · simp [h]
    · have h0 : (files.filter isValidFile).length = 0 := by omega
      have : files.filter isValidFile = [] := List.length_eq_zero.mp h0
      simp [h, this]
  refine ⟨h1, ?_, ?_⟩
  · rw [h1]
    simp [List.mem_append, List.mem_filter]
  · unfold isValidFile
    by_cases ht : validTypes.contains f.type = true
    · by_cases hs : f.size > maxSize
      · simp [ht, hs]
      · simp [ht, hs]
        omega
    · simp [ht]

end PhotoShare
